import Mathlib

/-!
Shallow embedding of the mini-idb IndexedDB wrapper (src/src/db.js and the
unnamed IndexDB subclass module). JavaScript promises are modelled by the
`Settled` type (a promise either resolves with a value or rejects with an
error status); native IndexedDB requests are modelled by `Req` (a request
either fires onsuccess with a result or fires onerror); records are finite
field maps from field names to numeric field values; a store is its key path plus its record
list. Each wrapper method becomes a pure function of the store state and of
the outcome flags of the native requests it issues.
-/

/-- Status payload, the `{code, message}` objects of the `errorCode` maps. -/
structure ErrorCode where
  code : Nat
  message : String
deriving DecidableEq, Repr

/-- The `errorCode` constants of src/src/db.js. -/
def openFail : ErrorCode := ⟨101, "打开数据库失败"⟩

def compatibleFail : ErrorCode := ⟨102, "你的浏览器不支持indexedDB"⟩

def setSuccess : ErrorCode := ⟨103, "插入新数据成功"⟩

def setFail : ErrorCode := ⟨104, "插入新数据失败"⟩

def setNoCorresponding : ErrorCode := ⟨105, "插入新数据失败,value不存在与store对应的key"⟩

def updateSuccess : ErrorCode := ⟨106, "更新数据成功"⟩

def updateFail : ErrorCode := ⟨107, "更新数据失败"⟩

def removeSuccess : ErrorCode := ⟨108, "删除数据成功"⟩

def removeFail : ErrorCode := ⟨109, "删除数据失败"⟩

def removeAllSuccess : ErrorCode := ⟨110, "清空store成功"⟩

def removeAllFail : ErrorCode := ⟨111, "清空store失败"⟩

def setBatchSuccess : ErrorCode := ⟨112, "批量插入数据成功"⟩

def setBatchFail : ErrorCode := ⟨113, "批量插入数据失败"⟩

/-- The `errorCode` constants of the IndexDB module (src/unnamed/part_000);
its `updateSuccess`/`updateFail` shadow the base-class ones, so they get an
`idx` prefix here. -/
def idxUpdateSuccess : ErrorCode := ⟨114, "更新成功"⟩

def idxUpdateFail : ErrorCode := ⟨115, "更新失败"⟩

def noFound : ErrorCode := ⟨116, "没有找到符合条件的值"⟩

def primaryKey : ErrorCode := ⟨117, "不能修改主键"⟩

def deleteSuccess : ErrorCode := ⟨118, "删除成功"⟩

def deleteFail : ErrorCode := ⟨119, "删除失败"⟩

/-- A settled JavaScript promise: resolved with a value or rejected with a
status object. -/
inductive Settled (α : Type) where
  | resolved (a : α)
  | rejected (e : ErrorCode)
deriving DecidableEq, Repr

/-- Whether a settled promise was resolved (fulfilled). -/
def Settled.isResolved {α : Type} : Settled α → Bool
  | .resolved _ => true
  | .rejected _ => false

/-- Whether a settled promise was rejected. -/
def Settled.isRejected {α : Type} : Settled α → Bool
  | .resolved _ => false
  | .rejected _ => true

/-- Outcome of a native IDBRequest: onsuccess with a produced result, or
onerror. -/
inductive Req (α : Type) where
  | success (result : α)
  | failure
deriving DecidableEq, Repr

/-- `promisify(req, success, error)` of db.js: resolve with the fixed
`success` status on request success, reject with `error` on request error. -/
def promisify {α : Type} (req : Req α) (success error : ErrorCode) : Settled ErrorCode :=
  match req with
  | .success _ => .resolved success
  | .failure => .rejected error

/-- `promisifyRes(req)` of db.js: resolve with `req.result` on success,
resolve with `undefined` on error, never reject. `undefined` is `none`. -/
def promisifyRes {β : Type} (req : Req (Option β)) : Settled (Option β) :=
  match req with
  | .success r => .resolved r
  | .failure => .resolved none

/-- A record value: a finite map from field names to field values. -/
abbrev Value := List (String × Nat)

/-- `value[k]`: the value of field `k`, `none` when the field is absent. -/
def lookupField (v : Value) (k : String) : Option Nat :=
  (v.find? (fun p => p.1 == k)).map Prod.snd

/-- `value.hasOwnProperty(k)`. -/
def hasOwnProperty (v : Value) (k : String) : Bool :=
  (lookupField v k).isSome

/-- An object store: its declared key path and its current records. -/
structure Store where
  keyPath : String
  records : List Value
deriving DecidableEq, Repr

/-- Result of the native `getAllKeys` request: the primary-key value of every
record in the store. -/
def keysOf (st : Store) : List Nat :=
  st.records.filterMap (fun r => lookupField r st.keyPath)

/-- Result of the native `get` request: the record whose primary key equals
`k`, if any. -/
def getFn (st : Store) (k : Nat) : Option Value :=
  st.records.find? (fun r => lookupField r st.keyPath == some k)

/-- Result of the native `getAll` request. -/
def getAllFn (st : Store) : List Value :=
  st.records

/-- Effect of the native `put` request: replace the record holding the same
primary-key value, or append when no record holds it. -/
def putFn (st : Store) (v : Value) : Store :=
  if st.records.any (fun r => lookupField r st.keyPath == lookupField v st.keyPath) then
    ⟨st.keyPath, st.records.map
      (fun r => if lookupField r st.keyPath == lookupField v st.keyPath then v else r)⟩
  else
    ⟨st.keyPath, st.records ++ [v]⟩

/-- Effect of the native `add` request on a key not yet present: append. -/
def addFn (st : Store) (v : Value) : Store :=
  ⟨st.keyPath, st.records ++ [v]⟩

/-- A native request whose success is governed by an outcome flag `ok`,
producing `res` on success. Models the engine firing onsuccess or onerror. -/
def readReq {β : Type} (ok : Bool) (res : Option β) : Req (Option β) :=
  if ok then .success res else .failure

/-- A native write request governed by an outcome flag. -/
def writeReq (ok : Bool) : Req Unit :=
  if ok then .success () else .failure

/-- `get(storeName, key)` of db.js: a native `get` routed through
`promisifyRes`; `ok` is the native request outcome. -/
def getModel (ok : Bool) (st : Store) (k : Nat) : Settled (Option Value) :=
  promisifyRes (readReq ok (getFn st k))

/-- `getAll(storeName)` of db.js routed through `promisifyRes`. -/
def getAllModel (ok : Bool) (st : Store) : Settled (Option (List Value)) :=
  promisifyRes (readReq ok (some (getAllFn st)))

/-- `getAllKeys(storeName)` of db.js routed through `promisifyRes`. -/
def getAllKeysModel (ok : Bool) (st : Store) : Settled (Option (List Nat)) :=
  promisifyRes (readReq ok (some (keysOf st)))

/-- `update(storeName, newValue)` of db.js: an unconditional native `put`
promisified with `updateSuccess`/`updateFail`. Returns the settled status and
the store after the request. -/
def updateModel (putOk : Bool) (st : Store) (newValue : Value) : Settled ErrorCode × Store :=
  (promisify (writeReq putOk) updateSuccess updateFail,
   if putOk then putFn st newValue else st)

/-- Result of a `set` call: a settled promise, or the TypeError thrown when
`getAllKeys` resolved `undefined` and `undefined.indexOf` is evaluated. -/
inductive SetOutcome where
  | settled (s : Settled ErrorCode)
  | thrownTypeError
deriving DecidableEq, Repr

/-- Full observable behaviour of one `set` call: its outcome, the store left
behind, and which native write request it issued. -/
structure SetRun where
  result : SetOutcome
  store : Store
  issuedAdd : Bool
  issuedPut : Bool
deriving DecidableEq, Repr

/-- `set(storeName, value)` of db.js. Reads the store key path; when the
value lacks it, returns `setNoCorresponding` without any request. Otherwise
awaits `getAllKeys` (`readOk` is that request's outcome); when the key value
is already among the keys, delegates to `update`, else issues an `add`
promisified with `setSuccess`/`setFail` (`writeOk` is the write request's
outcome). -/
def setModel (readOk writeOk : Bool) (st : Store) (value : Value) : SetRun :=
  match lookupField value st.keyPath with
  | some k =>
    match getAllKeysModel readOk st with
    | .resolved (some keys) =>
      if k ∈ keys then
        let u := updateModel writeOk st value
        ⟨.settled u.1, u.2, false, true⟩
      else
        ⟨.settled (promisify (writeReq writeOk) setSuccess setFail),
         if writeOk then addFn st value else st, true, false⟩
    | .resolved none => ⟨.thrownTypeError, st, false, false⟩
    | .rejected e => ⟨.settled (.rejected e), st, false, false⟩
  | none => ⟨.settled (.resolved setNoCorresponding), st, false, false⟩

/-- `Promise.all` over already-settled promises: resolves with the list of
values when all resolved, rejects with the first rejection otherwise. -/
def promiseAll {α : Type} : List (Settled α) → Settled (List α)
  | [] => .resolved []
  | .resolved a :: rest =>
    match promiseAll rest with
    | .resolved l => .resolved (a :: l)
    | .rejected e => .rejected e
  | .rejected e :: _ => .rejected e

/-- `setBatch(storeName, list)` of db.js, abstracted over the settlements of
the individual `set` calls it launched: awaits `Promise.all` (an await on a
rejected aggregate rethrows, rejecting `setBatch` itself), then compares the
result count with the input count. -/
def setBatchModel (results : List (Settled ErrorCode)) : Settled ErrorCode :=
  match promiseAll results with
  | .resolved resList =>
    .resolved (if resList.length = results.length then setBatchSuccess else setBatchFail)
  | .rejected e => .rejected e

/-- `getByIndex`: native index `get` — the first record whose field at the
index key path equals the probed value (the index is identified here by its
key path). -/
def getByIndexFn (st : Store) (indexPath : String) (ix : Nat) : Option Value :=
  st.records.find? (fun r => lookupField r indexPath == some ix)

/-- `getCountByIndex`: native index `count` over the probed value. -/
def getCountByIndexFn (st : Store) (indexPath : String) (ix : Nat) : Nat :=
  (st.records.filter (fun r => lookupField r indexPath == some ix)).length

/-- `getAllByIndex`: native index `getAll` — every record carrying the index
field. -/
def getAllByIndexFn (st : Store) (indexPath : String) : List Value :=
  st.records.filter (fun r => hasOwnProperty r indexPath)

/-- `getAllKeysByIndex`: native index `getAllKeys` — the primary keys of the
indexed records. -/
def getAllKeysByIndexFn (st : Store) (indexPath : String) : List Nat :=
  (getAllByIndexFn st indexPath).filterMap (fun r => lookupField r st.keyPath)

/-- `getKeyByIndex`: native index `getKey` — the primary key of the first
record matching the probed index value. -/
def getKeyByIndexFn (st : Store) (indexPath : String) (ix : Nat) : Option Nat :=
  (getByIndexFn st indexPath ix).bind (fun r => lookupField r st.keyPath)

/-- `getByIndex(storeName, indexName, index)` routed through `promisifyRes`. -/
def getByIndexModel (ok : Bool) (st : Store) (indexPath : String) (ix : Nat) :
    Settled (Option Value) :=
  promisifyRes (readReq ok (getByIndexFn st indexPath ix))

/-- `getCountByIndex` routed through `promisifyRes`. -/
def getCountByIndexModel (ok : Bool) (st : Store) (indexPath : String) (ix : Nat) :
    Settled (Option Nat) :=
  promisifyRes (readReq ok (some (getCountByIndexFn st indexPath ix)))

/-- `getAllByIndex` routed through `promisifyRes`. -/
def getAllByIndexModel (ok : Bool) (st : Store) (indexPath : String) :
    Settled (Option (List Value)) :=
  promisifyRes (readReq ok (some (getAllByIndexFn st indexPath)))

/-- `getAllKeysByIndex` routed through `promisifyRes`. -/
def getAllKeysByIndexModel (ok : Bool) (st : Store) (indexPath : String) :
    Settled (Option (List Nat)) :=
  promisifyRes (readReq ok (some (getAllKeysByIndexFn st indexPath)))

/-- `getKeyByIndex` routed through `promisifyRes`. -/
def getKeyByIndexModel (ok : Bool) (st : Store) (indexPath : String) (ix : Nat) :
    Settled (Option Nat) :=
  promisifyRes (readReq ok (getKeyByIndexFn st indexPath ix))

/-- The cursor-match test of `updateByCursor`/`deleteByCursor`:
`value.hasOwnProperty(attrName) && value[attrName] === attr`. -/
def cursorMatches (attrName : String) (attr : Nat) (r : Value) : Bool :=
  lookupField r attrName == some attr

/-- The accumulating cursor loop of `getAllByCursor`: push each visited
value, continue, and deliver the accumulator at exhaustion. -/
def gabcScan (records values : List Value) : List Value :=
  match records with
  | [] => values
  | v :: rest => gabcScan rest (values ++ [v])

/-- `getAllByCursor(storeName)`: resolves with the accumulated values at
cursor exhaustion, resolves `undefined` when the cursor request errors
(`cursorOk` is the cursor request's outcome). -/
def getAllByCursorModel (cursorOk : Bool) (st : Store) : Settled (Option (List Value)) :=
  if cursorOk then .resolved (some (gabcScan st.records [])) else .resolved none

/-- The promise resolution produced by the `updateByCursor` cursor loop:
JavaScript honours only the first `resolve`, so the first record matching
`attrName = attr` fixes the settlement — adopting the `cursor.update`
promisification when the primary key is unchanged (`updateOk` is that update
request's outcome), `primaryKey` when it differs — and exhaustion without a
match resolves `noFound`. -/
def ubcScan (updateOk : Bool) (kp attrName : String) (attr : Nat) (newVal : Value) :
    List Value → Settled ErrorCode
  | [] => .resolved noFound
  | r :: rest =>
    if cursorMatches attrName attr r then
      if lookupField r kp == lookupField newVal kp then
        promisify (writeReq updateOk) idxUpdateSuccess idxUpdateFail
      else
        .resolved primaryKey
    else
      ubcScan updateOk kp attrName attr newVal rest

/-- Per-record effect of the `updateByCursor` pass: the cursor continues past
a match, so every matching record whose primary key equals `newVal`'s is
overwritten by a `cursor.update` (when that request succeeds); all other
records stay in place. -/
def ubcF (updateOk : Bool) (kp attrName : String) (attr : Nat) (newVal r : Value) : Value :=
  if cursorMatches attrName attr r &&
      (lookupField r kp == lookupField newVal kp) && updateOk then
    newVal
  else r

/-- Store contents after the `updateByCursor` cursor pass. -/
def ubcStore (updateOk : Bool) (kp attrName : String) (attr : Nat) (newVal : Value)
    (records : List Value) : List Value :=
  records.map (ubcF updateOk kp attrName attr newVal)

/-- `updateByCursor(storeName, attrName, attr, newVal)`: when the cursor
request errors, resolves the module's `updateFail` (code 115) with the store
untouched; otherwise the settlement comes from the first match and the store
from the full pass. -/
def updateByCursorModel (cursorOk updateOk : Bool) (st : Store) (attrName : String)
    (attr : Nat) (newVal : Value) : Settled ErrorCode × Store :=
  if cursorOk then
    (ubcScan updateOk st.keyPath attrName attr newVal st.records,
     ⟨st.keyPath, ubcStore updateOk st.keyPath attrName attr newVal st.records⟩)
  else
    (.resolved idxUpdateFail, st)

/-- The promise resolution of the `deleteByCursor` loop: the first record
matching `attrName = attr` fixes the settlement by adopting the
`cursor.delete` promisification (`deleteOk` is that request's outcome);
exhaustion without a match resolves `noFound`. -/
def dbcScan (deleteOk : Bool) (attrName : String) (attr : Nat) :
    List Value → Settled ErrorCode
  | [] => .resolved noFound
  | r :: rest =>
    if cursorMatches attrName attr r then
      promisify (writeReq deleteOk) deleteSuccess deleteFail
    else
      dbcScan deleteOk attrName attr rest

/-- Store contents after the `deleteByCursor` pass: the cursor continues past
a match, so every matching record is deleted (when the delete requests
succeed). -/
def dbcStore (deleteOk : Bool) (attrName : String) (attr : Nat)
    (records : List Value) : List Value :=
  if deleteOk then records.filter (fun r => !(cursorMatches attrName attr r)) else records

/-- `deleteByCursor(storeName, attrName, attr)`: when the cursor request
errors, resolves `deleteFail` with the store untouched; otherwise as above. -/
def deleteByCursorModel (cursorOk deleteOk : Bool) (st : Store) (attrName : String)
    (attr : Nat) : Settled ErrorCode × Store :=
  if cursorOk then
    (dbcScan deleteOk attrName attr st.records,
     ⟨st.keyPath, dbcStore deleteOk attrName attr st.records⟩)
  else
    (.resolved deleteFail, st)

/-- Truthiness carrier for the `_dataBase` field: the constructor stores the
empty object literal (truthy); `undefined` would be falsy. -/
inductive JsObj where
  | undef
  | obj
deriving DecidableEq, Repr

/-- JavaScript truthiness of a `JsObj`. -/
def truthy : JsObj → Bool
  | .undef => false
  | .obj => true

/-- One entry of the constructor's `storeList`: store name and key field. -/
structure StoreDecl where
  name : String
  key : String
deriving DecidableEq, Repr

/-- The `DB` instance state set up by the constructor. -/
structure DBConn where
  _dataBase : JsObj
  _dataBaseName : String
  _dbVersion : Nat
  _indexedDB : Option Unit
  _storeList : List StoreDecl
deriving DecidableEq, Repr

/-- JavaScript `a || b` over possibly-undefined engine handles. -/
def jsOr (a b : Option Unit) : Option Unit :=
  match a with
  | some x => some x
  | none => b

/-- The `DB` constructor: `_dataBase = {}` (an object literal, hence truthy),
`_dbVersion = 1`, `_indexedDB = window.indexedDB || window.webkitIndexedDB`. -/
def dbConstructor (dataBaseName : String) (storeList : List StoreDecl)
    (winIndexedDB winWebkitIndexedDB : Option Unit) : DBConn :=
  ⟨JsObj.obj, dataBaseName, 1, jsOr winIndexedDB winWebkitIndexedDB, storeList⟩

/-- Observable outcome of an `open()` call: the async function resolves with
the connection, rejects with a status, resolves with a returned status, or
rejects with the TypeError thrown by calling `.open` on an undefined engine. -/
inductive OpenOutcome where
  | resolvedSelf
  | rejectedWith (e : ErrorCode)
  | resolvedWith (e : ErrorCode)
  | thrownTypeError
deriving DecidableEq, Repr

/-- `open(createIndex)` of db.js: branches on the truthiness of
`this._dataBase`; in the truthy branch it evaluates `this._indexedDB.open`
(a TypeError when the engine is absent) and otherwise promisifies the native
open request (`reqOk` its outcome: onsuccess/onupgradeneeded resolve the
connection, onerror rejects `openFail`); the falsy branch returns
`compatibleFail`. -/
def openModel (conn : DBConn) (reqOk : Bool) : OpenOutcome :=
  if truthy conn._dataBase then
    match conn._indexedDB with
    | none => .thrownTypeError
    | some _ => if reqOk then .resolvedSelf else .rejectedWith openFail
  else
    .resolvedWith compatibleFail

/-! Helper lemmas shared by the claim theorems. -/

/-- A promise built by `promisifyRes` is never rejected. -/
theorem promisifyRes_isRejected_false {β : Type} (req : Req (Option β)) :
    (promisifyRes req).isRejected = false := by
  cases req <;> rfl

/-- A cursor scan over records none of which match resolves `noFound`
(update variant). -/
theorem ubcScan_of_no_match (updateOk : Bool) (kp attrName : String) (attr : Nat)
    (newVal : Value) :
    ∀ l : List Value, (∀ r ∈ l, cursorMatches attrName attr r = false) →
      ubcScan updateOk kp attrName attr newVal l = .resolved noFound := by
  intro l
  induction l with
  | nil => intro _; rfl
  | cons r rest ih =>
    intro h
    have hr := h r (List.mem_cons_self r rest)
    simp only [ubcScan, hr, Bool.false_eq_true, if_false]
    exact ih (fun x hx => h x (List.mem_cons_of_mem r hx))

/-- A cursor scan over records none of which match resolves `noFound`
(delete variant). -/
theorem dbcScan_of_no_match (deleteOk : Bool) (attrName : String) (attr : Nat) :
    ∀ l : List Value, (∀ r ∈ l, cursorMatches attrName attr r = false) →
      dbcScan deleteOk attrName attr l = .resolved noFound := by
  intro l
  induction l with
  | nil => intro _; rfl
  | cons r rest ih =>
    intro h
    have hr := h r (List.mem_cons_self r rest)
    simp only [dbcScan, hr, Bool.false_eq_true, if_false]
    exact ih (fun x hx => h x (List.mem_cons_of_mem r hx))

/-! Claim theorems. -/

/-- Claim C1 (code-bug evidence). On a host with no compatible storage engine
(both `window.indexedDB` and `window.webkitIndexedDB` undefined), `open()`
does not fail with `compatibleFail`: the constructor stored the truthy object
literal in `_dataBase`, so `open`'s `if (this._dataBase)` guard always takes
the engine branch, where `this._indexedDB.open` throws a TypeError. The
`compatibleFail` branch is unreachable from any constructed connection, while
a native open-request error does reject with `openFail`. -/
theorem open_compatibleFail_unreachable :
    openModel (dbConstructor "db" [] none none) true = OpenOutcome.thrownTypeError ∧
    OpenOutcome.thrownTypeError ≠ OpenOutcome.resolvedWith compatibleFail ∧
    (∀ (nm : String) (sl : List StoreDecl) (e1 e2 : Option Unit) (reqOk : Bool),
      openModel (dbConstructor nm sl e1 e2) reqOk ≠ OpenOutcome.resolvedWith compatibleFail) ∧
    (∀ (nm : String) (sl : List StoreDecl) (e2 : Option Unit),
      openModel (dbConstructor nm sl (some ()) e2) false = OpenOutcome.rejectedWith openFail) := by
  refine ⟨rfl, by decide, ?_, ?_⟩
  · intro nm sl e1 e2 reqOk
    cases e1 <;> cases e2 <;> cases reqOk <;> simp [openModel, dbConstructor, jsOr, truthy]
  · intro nm sl e2
    cases e2 <;> rfl

/-- Claim C3: when the value lacks the store's key field, `set` resolves with
`setNoCorresponding` as a status value (it neither throws nor rejects), the
store is unchanged, and no `add` or `put` request is issued. -/
theorem set_missing_key_field (readOk writeOk : Bool) (st : Store) (v : Value)
    (h : lookupField v st.keyPath = none) :
    setModel readOk writeOk st v =
      ⟨SetOutcome.settled (.resolved setNoCorresponding), st, false, false⟩ := by
  simp [setModel, h]

/-- Witness for C3 at a concrete store and keyless value. -/
theorem set_missing_key_field_witness :
    setModel true true ⟨"id", []⟩ [("a", 1)] =
      ⟨SetOutcome.settled (.resolved setNoCorresponding), ⟨"id", []⟩, false, false⟩ :=
  set_missing_key_field true true ⟨"id", []⟩ [("a", 1)] (by decide)

/-- Claim C6: `promisifyRes` resolves the request's produced result on
success and resolves `undefined` on failure, never rejecting; and every
data-fetch operation routed through it (`get`, `getAll`, `getAllKeys`, and
the five index getters) never rejects and resolves `undefined` when its
native request fails. -/
theorem promisifyRes_never_rejects :
    (∀ (β : Type) (r : Option β), promisifyRes (Req.success r) = .resolved r) ∧
    (∀ (β : Type), promisifyRes (Req.failure : Req (Option β)) = .resolved none) ∧
    (∀ (β : Type) (req : Req (Option β)), (promisifyRes req).isRejected = false) ∧
    (∀ (ok : Bool) (st : Store) (k : Nat), (getModel ok st k).isRejected = false) ∧
    (∀ (st : Store) (k : Nat), getModel false st k = .resolved none) ∧
    (∀ (ok : Bool) (st : Store), (getAllModel ok st).isRejected = false) ∧
    (∀ st : Store, getAllModel false st = .resolved none) ∧
    (∀ (ok : Bool) (st : Store), (getAllKeysModel ok st).isRejected = false) ∧
    (∀ st : Store, getAllKeysModel false st = .resolved none) ∧
    (∀ (ok : Bool) (st : Store) (p : String) (ix : Nat),
      (getByIndexModel ok st p ix).isRejected = false) ∧
    (∀ (st : Store) (p : String) (ix : Nat), getByIndexModel false st p ix = .resolved none) ∧
    (∀ (ok : Bool) (st : Store) (p : String) (ix : Nat),
      (getCountByIndexModel ok st p ix).isRejected = false) ∧
    (∀ (st : Store) (p : String) (ix : Nat),
      getCountByIndexModel false st p ix = .resolved none) ∧
    (∀ (ok : Bool) (st : Store) (p : String), (getAllByIndexModel ok st p).isRejected = false) ∧
    (∀ (st : Store) (p : String), getAllByIndexModel false st p = .resolved none) ∧
    (∀ (ok : Bool) (st : Store) (p : String),
      (getAllKeysByIndexModel ok st p).isRejected = false) ∧
    (∀ (st : Store) (p : String), getAllKeysByIndexModel false st p = .resolved none) ∧
    (∀ (ok : Bool) (st : Store) (p : String) (ix : Nat),
      (getKeyByIndexModel ok st p ix).isRejected = false) ∧
    (∀ (st : Store) (p : String) (ix : Nat), getKeyByIndexModel false st p ix = .resolved none) :=
  ⟨fun _ _ => rfl, fun _ => rfl, fun _ req => promisifyRes_isRejected_false req,
   fun ok st k => promisifyRes_isRejected_false (readReq ok (getFn st k)),
   fun _ _ => rfl,
   fun ok st => promisifyRes_isRejected_false (readReq ok (some (getAllFn st))),
   fun _ => rfl,
   fun ok st => promisifyRes_isRejected_false (readReq ok (some (keysOf st))),
   fun _ => rfl,
   fun ok st p ix => promisifyRes_isRejected_false (readReq ok (getByIndexFn st p ix)),
   fun _ _ _ => rfl,
   fun ok st p ix => promisifyRes_isRejected_false (readReq ok (some (getCountByIndexFn st p ix))),
   fun _ _ _ => rfl,
   fun ok st p => promisifyRes_isRejected_false (readReq ok (some (getAllByIndexFn st p))),
   fun _ _ => rfl,
   fun ok st p => promisifyRes_isRejected_false (readReq ok (some (getAllKeysByIndexFn st p))),
   fun _ _ => rfl,
   fun ok st p ix => promisifyRes_isRejected_false (readReq ok (getKeyByIndexFn st p ix)),
   fun _ _ _ => rfl⟩

/-- Claim C8: when no record in the store matches `attrName = attr`, both
`updateByCursor` and `deleteByCursor` run the cursor to exhaustion and
resolve with `noFound`. -/
theorem cursor_no_match_noFound (updateOk deleteOk : Bool) (st : Store)
    (attrName : String) (attr : Nat) (newVal : Value)
    (h : ∀ r ∈ st.records, cursorMatches attrName attr r = false) :
    (updateByCursorModel true updateOk st attrName attr newVal).1 = .resolved noFound ∧
    (deleteByCursorModel true deleteOk st attrName attr).1 = .resolved noFound := by
  constructor
  · simpa [updateByCursorModel] using
      ubcScan_of_no_match updateOk st.keyPath attrName attr newVal st.records h
  · simpa [deleteByCursorModel] using
      dbcScan_of_no_match deleteOk attrName attr st.records h

/-- Witness for C8 on a one-record store with no matching record. -/
theorem cursor_no_match_noFound_witness :
    (updateByCursorModel true true ⟨"id", [[("id", 1)]]⟩ "a" 5 [("id", 1)]).1 =
      .resolved noFound ∧
    (deleteByCursorModel true true ⟨"id", [[("id", 1)]]⟩ "a" 5).1 = .resolved noFound :=
  cursor_no_match_noFound true true ⟨"id", [[("id", 1)]]⟩ "a" 5 [("id", 1)] (by decide)

/-- Claim C9: `getAllByCursor` over an empty store resolves with the empty
accumulator, not `undefined`; `undefined` is resolved only when the cursor
request errors. -/
theorem getAllByCursor_empty (st : Store) (cursorOk : Bool) :
    (st.records = [] → getAllByCursorModel true st = .resolved (some [])) ∧
    (getAllByCursorModel cursorOk st = .resolved none → cursorOk = false) := by
  constructor
  · intro h
    simp [getAllByCursorModel, h, gabcScan]
  · intro h
    cases cursorOk with
    | false => rfl
    | true => simp [getAllByCursorModel] at h

/-- Witness for C9 at a concrete empty store. -/
theorem getAllByCursor_empty_witness :
    getAllByCursorModel true ⟨"id", []⟩ = .resolved (some []) :=
  (getAllByCursor_empty ⟨"id", []⟩ true).1 rfl

/-- Claim C10: when the underlying cursor request errors, `updateByCursor`
resolves (never rejects) with the module's `updateFail` status and
`deleteByCursor` resolves with `deleteFail`, each leaving the store
untouched, whereas `getAllByCursor` resolves `undefined` on the same event. -/
theorem cursor_error_resolves_failure (st : Store) (attrName : String) (attr : Nat)
    (newVal : Value) (updateOk deleteOk : Bool) :
    updateByCursorModel false updateOk st attrName attr newVal =
      (.resolved idxUpdateFail, st) ∧
    deleteByCursorModel false deleteOk st attrName attr = (.resolved deleteFail, st) ∧
    (Settled.resolved idxUpdateFail).isRejected = false ∧
    (Settled.resolved deleteFail).isRejected = false ∧
    getAllByCursorModel false st = .resolved none ∧
    idxUpdateFail ≠ deleteFail := by
  refine ⟨rfl, rfl, rfl, rfl, rfl, by decide⟩

/-- When `promiseAll` resolves, every input promise was resolved and the
output has the input's length. -/
theorem promiseAll_resolved {α : Type} :
    ∀ (l : List (Settled α)) (res : List α), promiseAll l = .resolved res →
      (∀ r ∈ l, r.isResolved = true) ∧ res.length = l.length := by
  intro l
  induction l with
  | nil =>
    intro res h
    simp only [promiseAll, Settled.resolved.injEq] at h
    subst h
    refine ⟨?_, rfl⟩
    intro r hr
    cases hr
  | cons a rest ih =>
    intro res h
    cases a with
    | resolved x =>
      cases hrest : promiseAll rest with
      | resolved l2 =>
        rw [promiseAll, hrest] at h
        simp only [Settled.resolved.injEq] at h
        subst h
        have hih := ih l2 hrest
        refine ⟨?_, by simp [hih.2]⟩
        intro r hr
        rcases List.mem_cons.mp hr with h1 | h1
        · subst h1; rfl
        · exact hih.1 r h1
      | rejected e =>
        rw [promiseAll, hrest] at h
        cases h
    | rejected e =>
      rw [promiseAll] at h
      cases h

/-- When every input promise resolved, `promiseAll` resolves. -/
theorem promiseAll_all_resolved {α : Type} :
    ∀ l : List (Settled α), (∀ r ∈ l, r.isResolved = true) →
      ∃ res : List α, promiseAll l = .resolved res := by
  intro l
  induction l with
  | nil => intro _; exact ⟨[], rfl⟩
  | cons a rest ih =>
    intro h
    cases a with
    | resolved x =>
      obtain ⟨l2, hl2⟩ := ih (fun r hr => h r (List.mem_cons_of_mem _ hr))
      exact ⟨x :: l2, by rw [promiseAll, hl2]⟩
    | rejected e =>
      have := h (.rejected e) (List.mem_cons_self _ _)
      simp [Settled.isResolved] at this

/-- When `promiseAll` rejects, its rejection reason is the rejection of one
of the input promises. -/
theorem promiseAll_rejected_mem {α : Type} :
    ∀ (l : List (Settled α)) (e : ErrorCode), promiseAll l = .rejected e →
      Settled.rejected e ∈ l := by
  intro l
  induction l with
  | nil => intro e h; cases h
  | cons a rest ih =>
    intro e h
    cases a with
    | resolved x =>
      cases hrest : promiseAll rest with
      | resolved l2 => rw [promiseAll, hrest] at h; cases h
      | rejected e2 =>
        rw [promiseAll, hrest] at h
        cases h
        exact List.mem_cons_of_mem _ (ih e hrest)
    | rejected e2 =>
      rw [promiseAll] at h
      cases h
      exact List.mem_cons_self _ _

/-- Counterexample to claim C2 as stated: a batch whose single `set` call
rejects (`setFail`) makes `setBatch` reject with that same individual
status, not settle with the batch-failure status `setBatchFail`. -/
theorem setBatch_claim_counterexample :
    setBatchModel [Settled.rejected setFail] = .rejected setFail ∧
    (Settled.rejected setFail : Settled ErrorCode) ≠ Settled.resolved setBatchFail ∧
    (Settled.rejected setFail : Settled ErrorCode) ≠ Settled.rejected setBatchFail ∧
    (Settled.rejected setFail : Settled ErrorCode).isResolved = false := by
  decide

/-- Claim C2 (amended): `setBatch` resolves with `setBatchSuccess` iff every
individual `set` call resolved; a failing (rejecting) `set` makes the
aggregate `Promise.all` reject, and `setBatch` then rejects with that
individual set call's own rejection status (one of the input rejections) —
the `setBatchFail` status is never the resolved value, because the resolved
result list always has the input's length. -/
theorem setBatch_aggregate (l : List (Settled ErrorCode)) :
    (setBatchModel l = .resolved setBatchSuccess ↔ ∀ r ∈ l, r.isResolved = true) ∧
    (∀ e : ErrorCode, promiseAll l = .rejected e →
      setBatchModel l = .rejected e ∧ Settled.rejected e ∈ l) ∧
    ((∃ r ∈ l, r.isResolved = false) →
      ∃ e : ErrorCode, setBatchModel l = .rejected e ∧ Settled.rejected e ∈ l) ∧
    setBatchModel l ≠ .resolved setBatchFail := by
  refine ⟨⟨?_, ?_⟩, ?_, ?_, ?_⟩
  · intro h
    cases hp : promiseAll l with
    | resolved res => exact (promiseAll_resolved l res hp).1
    | rejected e => rw [setBatchModel, hp] at h; cases h
  · intro h
    obtain ⟨res, hres⟩ := promiseAll_all_resolved l h
    have hlen := (promiseAll_resolved l res hres).2
    simp [setBatchModel, hres, hlen]
  · intro e he
    exact ⟨by rw [setBatchModel, he], promiseAll_rejected_mem l e he⟩
  · rintro ⟨r, hr, hfalse⟩
    cases hp : promiseAll l with
    | resolved res =>
      have := (promiseAll_resolved l res hp).1 r hr
      rw [this] at hfalse
      cases hfalse
    | rejected e =>
      exact ⟨e, by rw [setBatchModel, hp], promiseAll_rejected_mem l e hp⟩
  · cases hp : promiseAll l with
    | resolved res =>
      have hlen := (promiseAll_resolved l res hp).2
      have hval : setBatchModel l = .resolved setBatchSuccess := by
        simp [setBatchModel, hp, hlen]
      rw [hval]
      decide
    | rejected e =>
      rw [setBatchModel, hp]
      intro h
      cases h

/-- Witness for the amended C2 on a singleton all-resolved batch. -/
theorem setBatch_aggregate_witness :
    setBatchModel [Settled.resolved setSuccess] = .resolved setBatchSuccess :=
  (setBatch_aggregate [Settled.resolved setSuccess]).1.mpr (by decide)

/-- Membership in the native `getAllKeys` result is existence of a record
with that primary-key value. -/
theorem mem_keysOf_iff (st : Store) (k : Nat) :
    k ∈ keysOf st ↔ ∃ r ∈ st.records, lookupField r st.keyPath = some k := by
  simp [keysOf, List.mem_filterMap]

/-- After a `put` pass over records containing the target key, the first
record found at that key is the new value. -/
theorem find?_map_put (kp : String) (v : Value) (k : Nat)
    (hv : lookupField v kp = some k) :
    ∀ l : List Value, (∃ r ∈ l, lookupField r kp = some k) →
      (l.map (fun r => if lookupField r kp == lookupField v kp then v else r)).find?
        (fun r => lookupField r kp == some k) = some v := by
  intro l
  induction l with
  | nil =>
    rintro ⟨r, hr, _⟩
    cases hr
  | cons a rest ih =>
    rintro ⟨r, hr, hrk⟩
    by_cases hc : lookupField a kp = lookupField v kp
    · have hbeq : (lookupField a kp == lookupField v kp) = true := by
        simp [hc]
      have hvk : (lookupField v kp == some k) = true := by
        simp [hv]
      simp [List.find?, hbeq, hvk]
    · have hbeq : (lookupField a kp == lookupField v kp) = false := by
        simpa using hc
      have hak : lookupField a kp ≠ some k := by
        rw [hv] at hc
        exact hc
      have hakb : (lookupField a kp == some k) = false := by
        simpa using hak
      simp only [List.map_cons, hbeq, Bool.false_eq_true, if_false, List.find?, hakb]
      apply ih
      rcases List.mem_cons.mp hr with h1 | h1
      · exact absurd (h1 ▸ hrk) hak
      · exact ⟨r, h1, hrk⟩

/-- Appending a value with a fresh key: lookup by that key finds exactly the
appended value. -/
theorem find?_append_fresh (kp : String) (v : Value) (k : Nat)
    (hv : lookupField v kp = some k) :
    ∀ l : List Value, (∀ r ∈ l, lookupField r kp ≠ some k) →
      (l ++ [v]).find? (fun r => lookupField r kp == some k) = some v := by
  intro l
  induction l with
  | nil =>
    intro _
    have hvk : (lookupField v kp == some k) = true := by simp [hv]
    simp [List.find?, hvk]
  | cons a rest ih =>
    intro h
    have hak : (lookupField a kp == some k) = false := by
      simpa using h a (List.mem_cons_self a rest)
    simp only [List.cons_append, List.find?, hak]
    exact ih (fun r hr => h r (List.mem_cons_of_mem a hr))

/-- Claim C4: when the value's key is already present in the store, `set`
delegates to `update` — it issues a `put` (never an `add`), resolves with
`update`'s success status rather than `set`'s, the record count is unchanged
(no duplicate), and a `get` at that key now returns the new value
(overwrite). -/
theorem set_existing_key_updates (st : Store) (v : Value) (k : Nat)
    (hv : lookupField v st.keyPath = some k) (hk : k ∈ keysOf st) :
    (∀ writeOk : Bool, setModel true writeOk st v =
      ⟨.settled (updateModel writeOk st v).1, (updateModel writeOk st v).2, false, true⟩) ∧
    (setModel true true st v).result = .settled (.resolved updateSuccess) ∧
    updateSuccess ≠ setSuccess ∧
    (setModel true true st v).store.records.length = st.records.length ∧
    getFn (setModel true true st v).store k = some v := by
  have hset : ∀ writeOk : Bool, setModel true writeOk st v =
      ⟨.settled (updateModel writeOk st v).1, (updateModel writeOk st v).2, false, true⟩ := by
    intro writeOk
    simp [setModel, hv, getAllKeysModel, readReq, promisifyRes, hk]
  have hex : ∃ r ∈ st.records, lookupField r st.keyPath = some k :=
    (mem_keysOf_iff st k).mp hk
  have hany : st.records.any
      (fun r => lookupField r st.keyPath == lookupField v st.keyPath) = true := by
    rw [List.any_eq_true]
    obtain ⟨r, hr, hrk⟩ := hex
    refine ⟨r, hr, ?_⟩
    simp [hrk, hv]
  have hput : putFn st v = ⟨st.keyPath, st.records.map
      (fun r => if lookupField r st.keyPath == lookupField v st.keyPath then v else r)⟩ := by
    rw [putFn, if_pos hany]
  refine ⟨hset, ?_, by decide, ?_, ?_⟩
  · rw [hset true]
    rfl
  · rw [hset true]
    simp [updateModel, hput]
  · rw [hset true]
    show getFn (updateModel true st v).2 k = some v
    simp only [updateModel, if_pos rfl, hput, getFn]
    exact find?_map_put st.keyPath v k hv st.records hex

/-- Witness for C4: overwriting the record with key 1 in a one-record store. -/
theorem set_existing_key_updates_witness :
    (setModel true true ⟨"id", [[("id", 1), ("a", 2)]]⟩ [("id", 1), ("a", 9)]).result =
      .settled (.resolved updateSuccess) ∧
    getFn (setModel true true ⟨"id", [[("id", 1), ("a", 2)]]⟩ [("id", 1), ("a", 9)]).store 1 =
      some [("id", 1), ("a", 9)] := by
  have h := set_existing_key_updates ⟨"id", [[("id", 1), ("a", 2)]]⟩
    [("id", 1), ("a", 9)] 1 (by decide) (by decide)
  exact ⟨h.2.1, h.2.2.2.2⟩

/-- Claim C5: when the value's key is not yet present, a successful `set`
resolves with `setSuccess`, issues the `add` (appending the record), and a
subsequent `get` at that key returns the inserted record. -/
theorem set_then_get_roundtrip (st : Store) (v : Value) (k : Nat)
    (hv : lookupField v st.keyPath = some k) (hk : k ∉ keysOf st) :
    setModel true true st v = ⟨.settled (.resolved setSuccess), addFn st v, true, false⟩ ∧
    getModel true (setModel true true st v).store k = .resolved (some v) := by
  have hset : setModel true true st v =
      ⟨.settled (.resolved setSuccess), addFn st v, true, false⟩ := by
    simp [setModel, hv, getAllKeysModel, readReq, promisifyRes, hk, promisify, writeReq]
  have hfresh : ∀ r ∈ st.records, lookupField r st.keyPath ≠ some k := by
    intro r hr hrk
    exact hk ((mem_keysOf_iff st k).mpr ⟨r, hr, hrk⟩)
  refine ⟨hset, ?_⟩
  rw [hset]
  show promisifyRes (readReq true (getFn (addFn st v) k)) = .resolved (some v)
  have hget : getFn (addFn st v) k = some v := by
    simp only [getFn, addFn]
    exact find?_append_fresh st.keyPath v k hv st.records hfresh
  rw [hget]
  rfl

/-- Witness for C5: inserting key 2 into a store holding key 1, then reading
it back. -/
theorem set_then_get_roundtrip_witness :
    setModel true true ⟨"id", [[("id", 1)]]⟩ [("id", 2), ("a", 7)] =
      ⟨.settled (.resolved setSuccess),
       addFn ⟨"id", [[("id", 1)]]⟩ [("id", 2), ("a", 7)], true, false⟩ ∧
    getModel true (setModel true true ⟨"id", [[("id", 1)]]⟩ [("id", 2), ("a", 7)]).store 2 =
      .resolved (some [("id", 2), ("a", 7)]) :=
  set_then_get_roundtrip ⟨"id", [[("id", 1)]]⟩ [("id", 2), ("a", 7)] 2 (by decide) (by decide)

/-- When the first matching record of the cursor scan has a primary key
differing from the new value's, the scan resolves `primaryKey`. -/
theorem ubcScan_first_match_key_differs (updateOk : Bool) (kp attrName : String)
    (attr : Nat) (newVal r : Value)
    (hkey : (lookupField r kp == lookupField newVal kp) = false) :
    ∀ l : List Value, l.find? (cursorMatches attrName attr) = some r →
      ubcScan updateOk kp attrName attr newVal l = .resolved primaryKey := by
  intro l
  induction l with
  | nil => intro h; cases h
  | cons a rest ih =>
    intro h
    by_cases hc : cursorMatches attrName attr a = true
    · rw [List.find?_cons_of_pos _ hc] at h
      cases h
      simp only [ubcScan, hc, if_true, hkey, Bool.false_eq_true, if_false]
    · have hcf : cursorMatches attrName attr a = false := by
        simpa using hc
      rw [List.find?_cons_of_neg _ (by simp [hcf])] at h
      simp only [ubcScan, hcf, Bool.false_eq_true, if_false]
      exact ih h

/-- Counterexample to claim C7 as stated: in a store where the first record
matching `a = 5` has the unchanged primary key 1 and a second matching record
has the differing primary key 2, `updateByCursor` resolves with the update
success status (the first `resolve` wins), not with `primaryKey`, even though
a matching record with a differing primary key exists. -/
theorem updateByCursor_claim_counterexample :
    (updateByCursorModel true true ⟨"id", [[("id", 1), ("a", 5)], [("id", 2), ("a", 5)]]⟩
        "a" 5 [("id", 1), ("a", 7)]).1 = .resolved idxUpdateSuccess ∧
    ([("id", 2), ("a", 5)] : Value) ∈
      (⟨"id", [[("id", 1), ("a", 5)], [("id", 2), ("a", 5)]]⟩ : Store).records ∧
    cursorMatches "a" 5 [("id", 2), ("a", 5)] = true ∧
    lookupField [("id", 2), ("a", 5)] "id" ≠ lookupField [("id", 1), ("a", 7)] "id" ∧
    Settled.resolved idxUpdateSuccess ≠ Settled.resolved primaryKey := by
  decide

/-- Claim C7 (amended): when the FIRST record matching `attrName = attr` in
cursor order has a primary-key value differing from `newVal`'s, the call
resolves with the `primaryKey` (primary-key-immutable) status; and no
matching record whose primary key differs is ever updated — the store pass
maps each record through `ubcF`, which fixes every such record. (A later
matching record with the unchanged key may still be updated as a side effect;
when the first match has the unchanged key, the promise instead adopts the
update promisification, so the claim as universally stated fails.) -/
theorem updateByCursor_primaryKey_first_match (updateOk : Bool) (st : Store)
    (attrName : String) (attr : Nat) (newVal r : Value)
    (hfind : st.records.find? (cursorMatches attrName attr) = some r)
    (hkey : (lookupField r st.keyPath == lookupField newVal st.keyPath) = false) :
    (updateByCursorModel true updateOk st attrName attr newVal).1 = .resolved primaryKey ∧
    (updateByCursorModel true updateOk st attrName attr newVal).2.records =
      st.records.map (ubcF updateOk st.keyPath attrName attr newVal) ∧
    (∀ x : Value, cursorMatches attrName attr x = true →
      (lookupField x st.keyPath == lookupField newVal st.keyPath) = false →
      ubcF updateOk st.keyPath attrName attr newVal x = x) := by
  refine ⟨?_, rfl, ?_⟩
  · show ubcScan updateOk st.keyPath attrName attr newVal st.records = .resolved primaryKey
    exact ubcScan_first_match_key_differs updateOk st.keyPath attrName attr newVal r
      hkey st.records hfind
  · intro x hx hkx
    simp [ubcF, hkx]

/-- Witness for the amended C7: a single matching record whose key 2 differs
from the new value's key 1. -/
theorem updateByCursor_primaryKey_first_match_witness :
    (updateByCursorModel true true ⟨"id", [[("id", 2), ("a", 5)]]⟩ "a" 5 [("id", 1)]).1 =
      .resolved primaryKey :=
  (updateByCursor_primaryKey_first_match true ⟨"id", [[("id", 2), ("a", 5)]]⟩ "a" 5
    [("id", 1)] [("id", 2), ("a", 5)] (by decide) (by decide)).1
